import Mathlib

/-!
Shallow embedding of the order/payment/notification core of a food-delivery
backend (FastAPI + Celery + SQLAlchemy), together with theorems about its
order state machine, payment reconciliation, refund handling, websocket
connection registry and money arithmetic.  Each definition is translated
from the corresponding Python source file; comments on the definitions name
the file and the behaviour being mirrored, including the places where the
Python raises at runtime (every such raise is caught by an enclosing
`except` in the source, and the embedding records the caught outcome).
-/

namespace FoodDelivery

/-- Order lifecycle statuses, from `app/models/order.py` (`class OrderStatus`). -/
inductive OrderStatus
  | PENDING
  | CONFIRMED
  | PREPARING
  | READY_FOR_PICKUP
  | OUT_FOR_DELIVERY
  | DELIVERED
  | CANCELLED
  | REFUNDED
  deriving DecidableEq, Repr

/-- The `.value` string of each `OrderStatus` member, from `app/models/order.py`. -/
def OrderStatus.value : OrderStatus → String
  | .PENDING => "pending"
  | .CONFIRMED => "confirmed"
  | .PREPARING => "preparing"
  | .READY_FOR_PICKUP => "ready_for_pickup"
  | .OUT_FOR_DELIVERY => "out_for_delivery"
  | .DELIVERED => "delivered"
  | .CANCELLED => "cancelled"
  | .REFUNDED => "refunded"

/-- Payment statuses, from `app/models/payment.py` (`class PaymentStatus`). -/
inductive PaymentStatus
  | PENDING
  | PROCESSING
  | COMPLETED
  | FAILED
  | CANCELLED
  | REFUNDED
  deriving DecidableEq, Repr

/-- The `Order` row of `app/models/order.py`.  Money is modelled as exact
rationals, timestamps as optional integer instants.  The model has `status`,
`payment_status`, the five money columns, the four transition timestamps and
`created_at`; it has no version column of any kind (none exists in the
source model). -/
structure Order where
  id : Nat
  order_number : String
  customer_id : Nat
  restaurant_id : Nat
  delivery_partner_id : Option Nat
  status : OrderStatus
  payment_status : PaymentStatus
  subtotal : ℚ
  delivery_fee : ℚ
  tax_amount : ℚ
  discount_amount : ℚ
  total_amount : ℚ
  prepared_at : Option ℤ
  picked_up_at : Option ℤ
  delivered_at : Option ℤ
  cancelled_at : Option ℤ
  created_at : ℤ
  deriving DecidableEq, Repr

/-- The exceptions of `app/core/exception.py` that the embedded services raise. -/
inductive ServiceError
  | NotFound
  | Validation (msg : String)
  | Authorization
  deriving DecidableEq, Repr

/-- The `valid_transitions` dict literal inside
`OrderService.update_order_status` (`app/service/order_service.py`).
`none` models a status that is not a key of the dict: the dict has no entry
for `DELIVERED`, `CANCELLED` or `REFUNDED`. -/
def valid_transitions : OrderStatus → Option (List OrderStatus)
  | .PENDING => some [.CONFIRMED, .CANCELLED]
  | .CONFIRMED => some [.PREPARING, .CANCELLED]
  | .PREPARING => some [.READY_FOR_PICKUP, .CANCELLED]
  | .READY_FOR_PICKUP => some [.OUT_FOR_DELIVERY]
  | .OUT_FOR_DELIVERY => some [.DELIVERED]
  | .DELIVERED => none
  | .CANCELLED => none
  | .REFUNDED => none

/-- The targets the service's transition table allows from a given source:
the dict entry when the source is a key, empty otherwise. -/
def allowedTargets (s : OrderStatus) : List OrderStatus :=
  (valid_transitions s).getD []

/-- The mutation part of `OrderService.update_order_status`: write the new
status and stamp the timestamp the source stamps for it (`prepared_at` for
PREPARING, `picked_up_at` for OUT_FOR_DELIVERY, `delivered_at` for
DELIVERED, `cancelled_at` for CANCELLED; every other target stamps
nothing). -/
def applyStatus (o : Order) (new_status : OrderStatus) (ts : ℤ) : Order :=
  let o1 := { o with status := new_status }
  match new_status with
  | .PREPARING => { o1 with prepared_at := some ts }
  | .OUT_FOR_DELIVERY => { o1 with picked_up_at := some ts }
  | .DELIVERED => { o1 with delivered_at := some ts }
  | .CANCELLED => { o1 with cancelled_at := some ts }
  | _ => o1

/-- `OrderService.update_order_status` (`app/service/order_service.py`,
after the not-found check, so the loaded order is the argument).  The guard
is `if order.status in valid_transitions: if new_status not in ...: raise`;
when the current status is not a key of the dict the inner check is skipped
entirely and the write proceeds, exactly as in the source.  The write is a
plain `db.commit()`: the model has no version counter and no conditional
persistence. -/
def update_order_status (o : Order) (new_status : OrderStatus) (ts : ℤ) :
    Except ServiceError Order :=
  match valid_transitions o.status with
  | some allowed =>
      if new_status ∈ allowed then
        Except.ok (applyStatus o new_status ts)
      else
        Except.error (ServiceError.Validation
          ("Cannot transition from " ++ o.status.value ++ " to " ++ new_status.value))
  | none => Except.ok (applyStatus o new_status ts)

/-- A concrete order used to evaluate the embedded operations. -/
def baseOrder : Order :=
  { id := 1
  , order_number := "ORD-1"
  , customer_id := 10
  , restaurant_id := 20
  , delivery_partner_id := none
  , status := .PENDING
  , payment_status := .PENDING
  , subtotal := 25
  , delivery_fee := 299/100
  , tax_amount := 2
  , discount_amount := 0
  , total_amount := 2999/100
  , prepared_at := none
  , picked_up_at := none
  , delivered_at := none
  , cancelled_at := none
  , created_at := 0 }

/-- C1: the claim says every (source, target) pair outside the legal graph —
in particular every pair whose source is the terminal DELIVERED, CANCELLED
or REFUNDED — fails with InvalidTransition and leaves the status unchanged.
The code violates it: the `valid_transitions` dict has no key for the
terminal statuses, the membership guard is skipped for them, and
`update_order_status` accepts any target from a terminal source.  Here an
order in DELIVERED is moved back to CONFIRMED with a success result. -/
theorem C1_terminal_source_transition_accepted :
    update_order_status { baseOrder with status := .DELIVERED } .CONFIRMED 99
      = Except.ok { baseOrder with status := .CONFIRMED } := by
  rfl

/-- C2 counterexample: per the claim (and §4.1 of the spec it quotes),
REFUNDED is a legal target from any non-terminal status via the refund
exception, and a successful transition to it stamps `cancelled_at`.  The
code instead rejects REFUNDED from PENDING with a ValidationException:
REFUNDED is not a target of any entry of the transition table. -/
theorem C2_counterexample_refund_from_pending_rejected :
    update_order_status baseOrder .REFUNDED 5
      = Except.error (ServiceError.Validation
          "Cannot transition from pending to refunded") := by
  rfl

/-- C2 (amended): for every (source, target) pair of the code's transition
table, `update_order_status` succeeds, writes the target status, stamps the
matching timestamp exactly as the code does (`prepared_at` for PREPARING,
`picked_up_at` for OUT_FOR_DELIVERY, `delivered_at` for DELIVERED,
`cancelled_at` for CANCELLED; REFUNDED is not a table target and stamps
nothing), leaves the other timestamps and the money fields unchanged; the
Order model has no version counter, so nothing is incremented and the
persistence is unconditional. -/
theorem C2_amended_table_transition_writes_status_and_timestamp
    (o : Order) (t : OrderStatus) (ts : ℤ) (h : t ∈ allowedTargets o.status) :
    update_order_status o t ts = Except.ok (applyStatus o t ts) ∧
    (applyStatus o t ts).status = t ∧
    (applyStatus o t ts).prepared_at
      = (if t = .PREPARING then some ts else o.prepared_at) ∧
    (applyStatus o t ts).picked_up_at
      = (if t = .OUT_FOR_DELIVERY then some ts else o.picked_up_at) ∧
    (applyStatus o t ts).delivered_at
      = (if t = .DELIVERED then some ts else o.delivered_at) ∧
    (applyStatus o t ts).cancelled_at
      = (if t = .CANCELLED then some ts else o.cancelled_at) ∧
    (applyStatus o t ts).created_at = o.created_at ∧
    (applyStatus o t ts).subtotal = o.subtotal ∧
    (applyStatus o t ts).total_amount = o.total_amount := by
  refine ⟨?_, ?_, ?_, ?_, ?_, ?_, ?_, ?_, ?_⟩
  · unfold update_order_status
    cases hv : valid_transitions o.status with
    | none => rfl
    | some l =>
        have hl : t ∈ l := by simpa [allowedTargets, hv] using h
        simp [hl]
  all_goals cases t <;> simp [applyStatus]

/-- C2 witness: the amended theorem applied at the concrete table pair
PENDING → CONFIRMED. -/
theorem C2_amended_witness :
    update_order_status baseOrder .CONFIRMED 7
      = Except.ok (applyStatus baseOrder .CONFIRMED 7) :=
  (C2_amended_table_transition_writes_status_and_timestamp baseOrder .CONFIRMED 7
    (by decide)).1

/-- The `Payment` row of `app/models/payment.py`. -/
structure Payment where
  id : Nat
  user_id : Nat
  order_id : Nat
  stripe_payment_intent_id : Option String
  amount : ℚ
  currency : String
  status : PaymentStatus
  failure_reason : Option String
  refund_amount : ℚ
  refunded_at : Option ℤ
  created_at : ℤ
  deriving DecidableEq, Repr

/-- The status strings a retrieved Stripe PaymentIntent can report, as the
source branches on them. -/
inductive StripeIntentStatus
  | succeeded
  | requires_payment_method
  | payment_failed
  | canceled
  | requires_confirmation
  | requires_action
  | other
  deriving DecidableEq, Repr

/-- Outcome of a call to the Stripe API: a status, or a raised
`stripe.error.StripeError`. -/
inductive StripeResult
  | ok (s : StripeIntentStatus)
  | err (msg : String)
  deriving DecidableEq, Repr

/-- Tasks sent through `current_app.send_task` / `.delay`, with the task
name string exactly as the source passes it. -/
inductive SentTask
  | orderTransition (task : String) (order_id : Nat) (target : OrderStatus)
  | estimateDelivery (task : String) (order_id : Nat)
  | notifyUser (task : String) (user_id : Nat) (ntype : String)
  | processPayment (task : String) (arg : Nat)
  deriving DecidableEq, Repr

/-- Whether a sent task is an order transition to CONFIRMED. -/
def SentTask.isConfirmedTransition : SentTask → Bool
  | .orderTransition _ _ t => decide (t = OrderStatus.CONFIRMED)
  | _ => false

/-- How many order-transition-to-CONFIRMED jobs a queue holds. -/
def confirmedJobs (q : List SentTask) : Nat :=
  (q.filter SentTask.isConfirmedTransition).length

/-- `PaymentService.process_stripe_payment` (`app/service/payment_service.py`):
retrieves the intent and branches on its status.  On `succeeded` it sets the
payment to COMPLETED unconditionally — there is no guard that the current
status is PENDING or PROCESSING.  A raised StripeError is caught and sets
FAILED with the failure reason.  Returns the committed payment and the
boolean the method returns. -/
def process_stripe_payment (p : Payment) (r : StripeResult) : Payment × Bool :=
  match p.stripe_payment_intent_id with
  | none => (p, false)
  | some _ =>
      match r with
      | .err m => ({ p with status := .FAILED, failure_reason := some m }, false)
      | .ok .succeeded => ({ p with status := .COMPLETED }, true)
      | .ok .requires_payment_method =>
          ({ p with status := .FAILED, failure_reason := some "Payment method required" }, false)
      | .ok .canceled => ({ p with status := .CANCELLED }, false)
      | .ok _ => (p, false)

/-- The Celery task `process_payment` (`app/task/payment_task.py`) for a
payment whose intent retrieval yields `r`, with the pending task queue `q`.
After a successful `process_stripe_payment` the handler calls
`current_app.send_task(args=[order.id, OrderStatus.CONFIRMED.value])` — the
call passes NO task name, so it raises TypeError before anything is
enqueued; the enclosing `except Exception` catches it and the task returns
False.  The COMPLETED commit inside `process_stripe_payment` has already
happened by then.  Returns (committed payment, queue, returned boolean). -/
def process_payment_task (p : Payment) (r : StripeResult) (q : List SentTask) :
    Payment × List SentTask × Bool :=
  let res := process_stripe_payment p r
  if res.2 then
    (res.1, q, false)
  else
    (res.1, q, res.2)

/-- `PaymentService.check_stripe_payment_status`
(`app/service/payment_service.py`): the pure mapping from the provider
status to an internal `PaymentStatus`; a raised StripeError maps to FAILED. -/
def check_stripe_payment_status (r : StripeResult) : PaymentStatus :=
  match r with
  | .err _ => .FAILED
  | .ok .succeeded => .COMPLETED
  | .ok .requires_payment_method => .FAILED
  | .ok .payment_failed => .FAILED
  | .ok .canceled => .CANCELLED
  | .ok .requires_confirmation => .PROCESSING
  | .ok .requires_action => .PROCESSING
  | .ok .other => .PENDING

/-- The Celery task `check_pending_payments` (`app/task/payment_task.py`):
selects the payments whose status is PENDING (only PENDING — PROCESSING is
not selected) and whose `created_at` is before `now - 5 minutes`; for each
selected payment with an intent id it re-queries the provider, writes the
mapped status when it differs, and enqueues an order transition to
CONFIRMED (provider COMPLETED) or CANCELLED (provider FAILED).  `provider`
gives the status the re-query reports.  Returns the committed payments and
the queue. -/
def check_pending_payments_run (now : ℤ) (provider : StripeResult)
    (ps : List Payment) (q : List SentTask) : List Payment × List SentTask :=
  ps.foldl
    (fun acc p =>
      if p.status = PaymentStatus.PENDING ∧ p.created_at < now - 300 then
        match p.stripe_payment_intent_id with
        | none => (acc.1 ++ [p], acc.2)
        | some _ =>
            let st := check_stripe_payment_status provider
            if st ≠ p.status then
              let q1 :=
                if st = PaymentStatus.COMPLETED then
                  acc.2 ++ [SentTask.orderTransition
                    "app.tasks.order_tasks.update_order_status" p.order_id .CONFIRMED]
                else if st = PaymentStatus.FAILED then
                  acc.2 ++ [SentTask.orderTransition
                    "app.tasks.order_tasks.update_order_status" p.order_id .CANCELLED]
                else acc.2
              (acc.1 ++ [{ p with status := st }], q1)
            else (acc.1 ++ [p], acc.2)
      else (acc.1 ++ [p], acc.2))
    ([], q)

/-- The PENDING payment of the convergence scenario.  Its id equals its
order id, as the webhook path passes the order id where the task expects a
payment id. -/
def c3Payment : Payment :=
  { id := 1
  , user_id := 10
  , order_id := 1
  , stripe_payment_intent_id := some "pi_1"
  , amount := 2999/100
  , currency := "usd"
  , status := .PENDING
  , failure_reason := none
  , refund_amount := 0
  , refunded_at := none
  , created_at := 0 }

/-- Scenario: the webhook's `process_payment` handles the succeeded signal
first; the scheduled poll runs 6 minutes later over the committed payment.
Result: (final payment, final queue). -/
def c3_webhook_then_poll : Payment × List SentTask :=
  let step1 := process_payment_task c3Payment (.ok .succeeded) []
  let step2 := check_pending_payments_run 360 (.ok .succeeded) [step1.1] step1.2.1
  (step2.1.headD step1.1, step2.2)

/-- Scenario: the poll handles the succeeded signal first; the webhook's
`process_payment` runs afterwards. -/
def c3_poll_then_webhook : Payment × List SentTask :=
  let step1 := check_pending_payments_run 360 (.ok .succeeded) [c3Payment] []
  let step2 := process_payment_task (step1.1.headD c3Payment) (.ok .succeeded) step1.2
  (step2.1, step2.2.1)

/-- C3: the claim says a webhook "succeeded" signal and a later poll (in
either order) converge a PENDING payment to COMPLETED exactly once, with
exactly one CONFIRMED order transition enqueued in total.  The code
violates it: the webhook path's `send_task` call carries no task name and
raises TypeError after the COMPLETED commit, so webhook-then-poll enqueues
ZERO CONFIRMED transitions, while poll-then-webhook enqueues one — the two
orders do not agree and neither matches the claim for the webhook-first
order. -/
theorem C3_webhook_first_enqueues_nothing :
    (c3_webhook_then_poll.1.status = PaymentStatus.COMPLETED ∧
      confirmedJobs c3_webhook_then_poll.2 = 0) ∧
    (c3_poll_then_webhook.1.status = PaymentStatus.COMPLETED ∧
      confirmedJobs c3_poll_then_webhook.2 = 1) := by
  decide

/-- A Stripe webhook event as `stripe_webhook` (`app/api/v1/payments.py`)
reads it: the event id, the `type` tag, and `metadata['order_id']` from the
event's payment intent object. -/
structure WebhookEvent where
  id : String
  event_type : String
  order_id : Option Nat
  deriving DecidableEq, Repr

/-- Outcome of `stripe.Webhook.construct_event`: a verified event, a
ValueError (invalid payload) or a SignatureVerificationError. -/
inductive ConstructResult
  | ok (e : WebhookEvent)
  | badPayload
  | badSignature
  deriving DecidableEq, Repr

/-- The `/payments/webhook` route `stripe_webhook` (`app/api/v1/payments.py`).
Verification failures return HTTP 400 before anything else happens.  A
verified `payment_intent.succeeded` event with an order id enqueues
`process_payment.delay(int(order_id))` — the order id is passed where the
task expects a payment id.  No processed-event-id set of any kind is
consulted or written: every delivery of an event enqueues again.
`payment_intent.payment_failed` only logs.  The handler always returns
`{"status": "success"}` for a verified event. -/
def stripe_webhook (cr : ConstructResult) (q : List SentTask) :
    Except (Nat × String) (String × List SentTask) :=
  match cr with
  | .badPayload => Except.error (400, "Invalid payload")
  | .badSignature => Except.error (400, "Invalid signature")
  | .ok e =>
      if e.event_type = "payment_intent.succeeded" then
        match e.order_id with
        | some oid => Except.ok ("success", q ++ [SentTask.processPayment "process_payment" oid])
        | none => Except.ok ("success", q)
      else
        Except.ok ("success", q)

/-- A concrete verified `payment_intent.succeeded` event. -/
def c4Event : WebhookEvent :=
  { id := "evt_1", event_type := "payment_intent.succeeded", order_id := some 1 }

/-- C4 counterexample: the claim says delivering the same event id a second
time produces no state change the second time (processed event ids are
tracked and deduplicated).  The code tracks nothing: handling the very same
event `evt_1` twice enqueues a second `process_payment` job — the second
delivery changes state again. -/
theorem C4_counterexample_duplicate_event_enqueues_again :
    stripe_webhook (.ok c4Event) []
      = Except.ok ("success", [SentTask.processPayment "process_payment" 1]) ∧
    stripe_webhook (.ok c4Event) [SentTask.processPayment "process_payment" 1]
      = Except.ok ("success",
          [SentTask.processPayment "process_payment" 1,
           SentTask.processPayment "process_payment" 1]) := by
  constructor <;> rfl

/-- C4 (amended): the webhook handler rejects an invalid payload or
signature with HTTP 400 before any state effect, and always acknowledges a
verified event with `{"status": "success"}` whether or not it changed
anything; but it keeps no processed-event-id set — every delivery of a
verified `payment_intent.succeeded` event carrying an order id appends one
more `process_payment` job, so a duplicate delivery is not a no-op. -/
theorem C4_amended_webhook_ack_and_no_dedup (q : List SentTask) :
    (stripe_webhook .badPayload q = Except.error (400, "Invalid payload")) ∧
    (stripe_webhook .badSignature q = Except.error (400, "Invalid signature")) ∧
    (∀ e : WebhookEvent, ∃ q1, stripe_webhook (.ok e) q = Except.ok ("success", q1)) ∧
    (∀ e : WebhookEvent, ∀ oid : Nat,
      e.event_type = "payment_intent.succeeded" → e.order_id = some oid →
      stripe_webhook (.ok e) q
        = Except.ok ("success", q ++ [SentTask.processPayment "process_payment" oid])) := by
  refine ⟨rfl, rfl, ?_, ?_⟩
  · intro e
    unfold stripe_webhook
    by_cases ht : e.event_type = "payment_intent.succeeded"
    · cases ho : e.order_id <;> simp [ht, ho]
    · simp [ht]
  · intro e oid ht ho
    simp [stripe_webhook, ht, ho]

/-- The result Stripe reports for `stripe.Refund.create`: a refund object
with a status string, or a raised StripeError. -/
inductive RefundProviderResult
  | ok (status : String)
  | stripeErr (msg : String)
  deriving DecidableEq, Repr

/-- How a call to `PaymentService.process_refund` ends. -/
inductive RefundOutcome
  | returnedFalse
  | returnedTrue
  | raisedAttributeError
  deriving DecidableEq, Repr

/-- The observable result of one `process_refund` call: the outcome, the
in-memory (session) state of the loaded payment row, and whether
`db.commit()` ran during the call. -/
structure RefundRun where
  outcome : RefundOutcome
  sessionPayment : Payment
  committed : Bool
  deriving DecidableEq, Repr

/-- `PaymentService.process_refund` (`app/service/payment_service.py`).
There is no check that the payment's status is COMPLETED and no check that
the requested amount is at most `payment.amount`.  `refund_amount or
payment.amount` falls back to the full amount when the argument is None or
0 (Python falsiness).  On a succeeded provider refund the code assigns
`status = REFUNDED` and `refund_amount`, then evaluates
`datetime.utcnow()` — the module is imported as `import datetime`, which
has no `utcnow` attribute, so an AttributeError is raised before
`db.commit()`; only `stripe.error.StripeError` is caught, so the error
propagates with the session mutated and nothing committed.  A StripeError
from the provider is caught and returns False with no mutation. -/
def process_refund (p : Payment) (refund_amount : Option ℚ)
    (r : RefundProviderResult) : RefundRun :=
  match p.stripe_payment_intent_id with
  | none => ⟨.returnedFalse, p, false⟩
  | some _ =>
      let amount_to_refund :=
        match refund_amount with
        | none => p.amount
        | some a => if a = 0 then p.amount else a
      match r with
      | .stripeErr _ => ⟨.returnedFalse, p, false⟩
      | .ok s =>
          if s = "succeeded" then
            ⟨.raisedAttributeError,
             { p with status := .REFUNDED, refund_amount := amount_to_refund },
             false⟩
          else
            ⟨.returnedFalse, p, false⟩

/-- A payment that is still PENDING, with amount 10. -/
def c5Payment : Payment :=
  { id := 5
  , user_id := 10
  , order_id := 5
  , stripe_payment_intent_id := some "pi_5"
  , amount := 10
  , currency := "usd"
  , status := .PENDING
  , failure_reason := none
  , refund_amount := 0
  , refunded_at := none
  , created_at := 0 }

/-- C5: the claim says `process_refund` on a non-COMPLETED payment fails
with no state change, and a successful refund satisfies
`refund_amount ≤ amount` with `refunded_at` set.  The code violates it: on
a PENDING payment it proceeds to the provider anyway, assigns
status REFUNDED and a refund amount of 50 — five times the payment's
amount — to the session, then raises AttributeError at
`datetime.utcnow()` before committing; no code path can ever reach
`refunded_at` or return True. -/
theorem C5_pending_refund_mutates_session_and_raises :
    process_refund c5Payment (some 50) (.ok "succeeded")
      = ⟨.raisedAttributeError,
         { c5Payment with status := .REFUNDED, refund_amount := 50 }, false⟩ ∧
    c5Payment.status ≠ PaymentStatus.COMPLETED ∧
    c5Payment.amount < 50 ∧
    (∀ p : Payment, ∀ a : Option ℚ, ∀ r : RefundProviderResult,
      (process_refund p a r).outcome ≠ RefundOutcome.returnedTrue) := by
  refine ⟨by decide, by decide, by norm_num [c5Payment], ?_⟩
  intro p a r
  unfold process_refund
  cases p.stripe_payment_intent_id <;> cases r <;> simp
  split <;> simp

/-- The status filter of `auto_cancel_unpaid_order` (`app/task/order_task.py`):
the query is `Order.status == OrderStatus` — each row's status is compared
with the enum CLASS itself, not with `OrderStatus.PENDING`.  No enum member
equals the class, so the comparison is false for every row. -/
def status_eq_OrderStatus_class (_s : OrderStatus) : Bool := false

/-- The time filter of `auto_cancel_unpaid_order`: the code computes
`cutoff_time = datetime.now() + timedelta(minutes=15)` — fifteen minutes in
the FUTURE — and selects `created_at < cutoff_time`. -/
def auto_cancel_time_filter (now : ℤ) (o : Order) : Bool :=
  decide (o.created_at < now + 15 * 60)

/-- The row-selection predicate of `auto_cancel_unpaid_order`'s query. -/
def auto_cancel_selected (now : ℤ) (o : Order) : Bool :=
  status_eq_OrderStatus_class o.status && auto_cancel_time_filter now o

/-- The Celery task `auto_cancel_unpaid_order` (`app/task/order_task.py`):
for each selected order it sets `status = CANCELLED` and `cancelled_at`
directly on the row — not through `update_order_status` — and enqueues one
customer notification; then commits.  Returns the committed orders, the
queue, and the returned count. -/
def auto_cancel_unpaid_order (now : ℤ) (orders : List Order) :
    List Order × List SentTask × Nat :=
  orders.foldl
    (fun acc o =>
      if auto_cancel_selected now o then
        (acc.1 ++ [{ o with status := .CANCELLED, cancelled_at := some now }],
         acc.2.1 ++ [SentTask.notifyUser
           "app.tasks.notification_tasks.send_websocket_notification"
           o.customer_id "order_cancelled"],
         acc.2.2 + 1)
      else (acc.1 ++ [o], acc.2.1, acc.2.2))
    ([], [], 0)

/-- C6: the claim says the auto-cancel job selects exactly the orders in
PENDING created more than 15 minutes ago and cancels each through the
versioned transition path with one customer notification.  The code
violates it: its status filter compares each row's status with the
`OrderStatus` class itself (never true), so a PENDING order 20 minutes old
is not selected and nothing is cancelled or notified; its time filter uses
the cutoff `now + 15 minutes`, which a one-minute-old order already
passes — the opposite of "older than 15 minutes"; and the cancellation it
would perform writes the row directly instead of calling the transition
operation. -/
theorem C6_auto_cancel_selects_no_stale_pending_order :
    auto_cancel_selected 1200 baseOrder = false ∧
    auto_cancel_unpaid_order 1200 [baseOrder] = ([baseOrder], [], 0) ∧
    auto_cancel_time_filter 1200 { baseOrder with created_at := 1140 } = true := by
  exact ⟨rfl, rfl, rfl⟩

/-- Python's `OrderStatus[name]` — enum lookup by member NAME (used by the
task in `app/task/order_task.py` on its `new_status` payload string). -/
def orderStatusByName : String → Option OrderStatus
  | "PENDING" => some .PENDING
  | "CONFIRMED" => some .CONFIRMED
  | "PREPARING" => some .PREPARING
  | "READY_FOR_PICKUP" => some .READY_FOR_PICKUP
  | "OUT_FOR_DELIVERY" => some .OUT_FOR_DELIVERY
  | "DELIVERED" => some .DELIVERED
  | "CANCELLED" => some .CANCELLED
  | "REFUNDED" => some .REFUNDED
  | _ => none

/-- The observable result of one run of the Celery task
`update_order_status` of `app/task/order_task.py`: the committed order, the
tasks it enqueued, and the boolean it returned. -/
structure OrderTaskRun where
  order : Order
  enqueued : List SentTask
  returned : Bool
  deriving DecidableEq, Repr

/-- The Celery task `update_order_status` (`app/task/order_task.py`).  Its
body runs under `except Exception`, which rolls the session back and
returns False on any error.  Two unavoidable errors sit before the
`send_task` calls: `OrderStatus[new_status]` raises KeyError for the
lowercase `.value` payloads every producer sends (enum lookup is by member
NAME), and for any payload that survives it the first timestamp branch
`new_status == OrderStatus.PREPARING.values` raises AttributeError
(`values` is not an attribute of an enum member).  The notification
`send_task` calls further down — both addressed to
`order.restaurant.owner_id`, none to the customer or delivery partner, and
no estimated-delivery job — are therefore unreachable, and every run
commits nothing, enqueues nothing and returns False. -/
def order_task_update_order_status (o : Order) (new_status : String) : OrderTaskRun :=
  match orderStatusByName new_status with
  | none => ⟨o, [], false⟩
  | some _ => ⟨o, [], false⟩

/-- C8: the claim says every successful order status transition enqueues a
notification job to the customer, the restaurant owner and the assigned
delivery partner, plus an estimated-delivery job exactly on
PENDING → CONFIRMED.  The code violates it: on the payload
`OrderStatus.CONFIRMED.value` (the string "confirmed") that the payment
reconciler actually sends, the task handler raises KeyError at
`OrderStatus["confirmed"]`, rolls back, enqueues no job at all and returns
False — and no payload string can make it enqueue anything, since the
`.values` attribute error precedes every `send_task` call. -/
theorem C8_transition_job_enqueues_no_notifications :
    order_task_update_order_status baseOrder (OrderStatus.value .CONFIRMED)
      = ⟨baseOrder, [], false⟩ ∧
    orderStatusByName (OrderStatus.value .CONFIRMED) = none ∧
    (∀ o : Order, ∀ s : String,
      (order_task_update_order_status o s).enqueued = [] ∧
      (order_task_update_order_status o s).returned = false ∧
      (order_task_update_order_status o s).order = o) := by
  refine ⟨rfl, rfl, ?_⟩
  intro o s
  unfold order_task_update_order_status
  cases orderStatusByName s <;> simp

/-- A live websocket handle, identified by a number. -/
abbrev Handle := Nat

/-- The state of `ConnectionManager` (`app/utils/websocket_manager.py`):
`user_connection` is the dict from user id to the one live handle (modelled
as an association list with at most one entry per key, updated in place);
`role_connection` is the dict from role name to a list of handles. -/
structure ConnectionManager where
  user_connection : List (Nat × Handle)
  role_connection : List (String × List Handle)
  deriving DecidableEq, Repr

/-- Python dict assignment `d[k] = v`: replace the entry for `k` in place,
or append a new one. -/
def updateAssoc : List (Nat × Handle) → Nat → Handle → List (Nat × Handle)
  | [], k, v => [(k, v)]
  | (k1, v1) :: rest, k, v =>
      if k1 = k then (k, v) :: rest else (k1, v1) :: updateAssoc rest k v

/-- Python dict lookup `d.get(k)`. -/
def lookupAssoc : List (Nat × Handle) → Nat → Option Handle
  | [], _ => none
  | (k1, v1) :: rest, k => if k1 = k then some v1 else lookupAssoc rest k

/-- Python dict `d.pop(k, None)`: drop the entry for `k` if present. -/
def popAssoc : List (Nat × Handle) → Nat → List (Nat × Handle)
  | [], _ => []
  | (k1, v1) :: rest, k => if k1 = k then rest else (k1, v1) :: popAssoc rest k

/-- The Python test `user_role in self.user_connection` inside
`ConnectionManager.connect` checks the str role against the dict's KEYS,
which are int user ids; `int == str` is always False in Python, so the test
never holds. -/
def pyIntKeyEqStr (_k : Nat) (_role : String) : Bool := false

/-- Appending a websocket to `self.role_connection[user_role]`. -/
def appendRole (rc : List (String × List Handle)) (role : String) (ws : Handle) :
    List (String × List Handle) :=
  rc.map (fun e => if e.1 = role then (e.1, e.2 ++ [ws]) else e)

/-- `ConnectionManager.connect` (`app/utils/websocket_manager.py`): after
accepting the socket it assigns `self.user_connection[user_id] = websocket`
(replacing any prior handle for that user id), then appends the socket to
the role list only under the guard `if user_role in self.user_connection:`,
which tests the str role against the int keys and is therefore never
true — the role table is left unchanged. -/
def ConnectionManager.connect (m : ConnectionManager) (ws : Handle)
    (user_id : Nat) (user_role : String) : ConnectionManager :=
  let uc := updateAssoc m.user_connection user_id ws
  if uc.any (fun kv => pyIntKeyEqStr kv.1 user_role) then
    { user_connection := uc
    , role_connection := appendRole m.role_connection user_role ws }
  else
    { m with user_connection := uc }

/-- `ConnectionManager.send_personal_msg`: looks the user id up in
`user_connection` and writes the message to that handle; if the write
raises, the user's entry is evicted with `pop`.  The first component is the
handle the message was written to (none when the user has no entry). -/
def ConnectionManager.send_personal_msg (m : ConnectionManager)
    (user_id : Nat) (sendOk : Bool) : Option Handle × ConnectionManager :=
  match lookupAssoc m.user_connection user_id with
  | none => (none, m)
  | some ws =>
      if sendOk then (some ws, m)
      else (some ws, { m with user_connection := popAssoc m.user_connection user_id })

/-- Looking a key up right after updating it yields the new value. -/
theorem lookupAssoc_updateAssoc (l : List (Nat × Handle)) (k : Nat) (v : Handle) :
    lookupAssoc (updateAssoc l k v) k = some v := by
  induction l with
  | nil => simp [updateAssoc, lookupAssoc]
  | cons hd tl ih =>
      by_cases hk : hd.1 = k
      · simp [updateAssoc, lookupAssoc, hk]
      · simpa [updateAssoc, lookupAssoc, hk] using ih

/-- The `connect` guard is false on every dict, so `connect` only rewrites
`user_connection`. -/
theorem connect_role_connection_unchanged (m : ConnectionManager) (ws : Handle)
    (u : Nat) (r : String) :
    (m.connect ws u r).role_connection = m.role_connection ∧
    (m.connect ws u r).user_connection = updateAssoc m.user_connection u ws := by
  have hany : ∀ l : List (Nat × Handle),
      (l.any fun kv => pyIntKeyEqStr kv.1 r) = false := by
    intro l
    induction l with
    | nil => rfl
    | cons hd tl ih => simp [List.any, pyIntKeyEqStr, ih]
  constructor <;> simp [ConnectionManager.connect, hany]

/-- C7: registering a second connection for the same user id replaces the
first handle in the registry; every subsequent `send_personal_msg` for that
user id writes only through the new handle and never through the superseded
one, and the role table gains no entry for the old handle either (the
role-append guard never fires). -/
theorem C7_second_connection_supersedes_first (m : ConnectionManager)
    (u : Nat) (r1 r2 : String) (w1 w2 : Handle) (sendOk : Bool)
    (hne : w1 ≠ w2) :
    (((m.connect w1 u r1).connect w2 u r2).send_personal_msg u sendOk).1 = some w2 ∧
    (((m.connect w1 u r1).connect w2 u r2).send_personal_msg u sendOk).1 ≠ some w1 ∧
    ((m.connect w1 u r1).connect w2 u r2).role_connection = m.role_connection := by
  have h2 := connect_role_connection_unchanged (m.connect w1 u r1) w2 u r2
  have h1 := connect_role_connection_unchanged m w1 u r1
  have hlook : lookupAssoc ((m.connect w1 u r1).connect w2 u r2).user_connection u
      = some w2 := by
    rw [h2.2]
    exact lookupAssoc_updateAssoc _ u w2
  refine ⟨?_, ?_, ?_⟩
  · unfold ConnectionManager.send_personal_msg
    rw [hlook]
    cases sendOk <;> rfl
  · unfold ConnectionManager.send_personal_msg
    rw [hlook]
    cases sendOk <;> simpa using fun h => hne h.symm
  · rw [h2.1, h1.1]

/-- The manager as `__init__` builds it: no user connections, the four role
lists empty. -/
def manager_init : ConnectionManager :=
  { user_connection := []
  , role_connection :=
      [("customer", []), ("restaurant_owner", []), ("delivery_partner", []), ("admin", [])] }

/-- C7 witness: the theorem applied to the freshly initialised manager,
user 7, handles 1 then 2. -/
theorem C7_witness_concrete_replacement :
    ((((manager_init.connect 1 7 "customer").connect 2 7 "customer").send_personal_msg
        7 true).1 = some 2) ∧
    ((((manager_init.connect 1 7 "customer").connect 2 7 "customer").send_personal_msg
        7 true).1 ≠ some 1) ∧
    ((manager_init.connect 1 7 "customer").connect 2 7 "customer").role_connection
        = manager_init.role_connection :=
  C7_second_connection_supersedes_first manager_init 7 "customer" "customer" 1 2 true
    (by decide)

/-- Python 3 `round(x)` on an exact value: round half to even. -/
def roundHalfEven (x : ℚ) : ℤ :=
  if x - ⌊x⌋ < 1/2 then ⌊x⌋
  else if x - ⌊x⌋ > 1/2 then ⌊x⌋ + 1
  else if ⌊x⌋ % 2 = 0 then ⌊x⌋ else ⌊x⌋ + 1

/-- Python 3 `round(x, 2)` modelled on exact rationals: round half to even
at two decimal places. -/
def pyRound2 (x : ℚ) : ℚ := ((roundHalfEven (x * 100) : ℤ) : ℚ) / 100

/-- `calculate_tax` (`app/utils/__init__.py`): `round(subtotal * tax_rate, 2)`. -/
def calculate_tax (subtotal : ℚ) (tax_rate : ℚ) : ℚ :=
  pyRound2 (subtotal * tax_rate)

/-- The dict `calculate_order_total` returns. -/
structure OrderTotals where
  subtotal : ℚ
  delivery_fee : ℚ
  tax_amount : ℚ
  discount_amount : ℚ
  total_amount : ℚ
  deriving DecidableEq, Repr

/-- `calculate_order_total` (`app/utils/__init__.py`): tax is the rounded
`calculate_tax`, the total is `subtotal + delivery_fee + tax_amount -
discount_amount`, and every returned field is `round(_, 2)`. -/
def calculate_order_total (subtotal delivery_fee tax_rate discount_amount : ℚ) :
    OrderTotals :=
  let tax_amount := calculate_tax subtotal tax_rate
  let total := subtotal + delivery_fee + tax_amount - discount_amount
  { subtotal := pyRound2 subtotal
  , delivery_fee := pyRound2 delivery_fee
  , tax_amount := pyRound2 tax_amount
  , discount_amount := pyRound2 discount_amount
  , total_amount := pyRound2 total }

/-- `calculate_deliver_fee` (`app/utils/__init__.py`): base fee within 2 km,
otherwise `round(base_fee + (distance_km - 3) * 0.50, 2)` with the source's
own `distance_km - 3`. -/
def calculate_deliver_fee (distance_km : ℚ) (base_fee : ℚ) : ℚ :=
  if distance_km ≤ 2 then base_fee
  else pyRound2 (base_fee + (distance_km - 3) * (1/2))

/-- Rounding an integer value changes nothing. -/
theorem roundHalfEven_intCast (n : ℤ) : roundHalfEven ((n : ℤ) : ℚ) = n := by
  unfold roundHalfEven
  rw [Int.floor_intCast]
  norm_num

/-- When `x * 100` is the integer `n`, `round(x, 2)` is `n / 100`. -/
theorem pyRound2_eq_of_mul_eq (x : ℚ) (n : ℤ) (h : x * 100 = ((n : ℤ) : ℚ)) :
    pyRound2 x = ((n : ℤ) : ℚ) / 100 := by
  unfold pyRound2
  rw [h, roundHalfEven_intCast]

/-- A value that is already a whole number of cents is fixed by `round(_, 2)`. -/
theorem pyRound2_div100 (n : ℤ) : pyRound2 (((n : ℤ) : ℚ) / 100) = ((n : ℤ) : ℚ) / 100 :=
  pyRound2_eq_of_mul_eq _ n (div_mul_cancel₀ _ (by norm_num))

/-- Every output of `round(_, 2)` is a whole number of cents. -/
theorem pyRound2_form (x : ℚ) : ∃ n : ℤ, pyRound2 x = ((n : ℤ) : ℚ) / 100 :=
  ⟨roundHalfEven (x * 100), rfl⟩

/-- The `Restaurant` row fields `OrderService.create_order` reads
(`app/models/restaurant.py`). -/
structure Restaurant where
  id : Nat
  is_active : Bool
  minimum_order : ℚ
  delivery_fee : ℚ
  latitude : Option ℚ
  longitude : Option ℚ
  owner_id : Nat
  deriving DecidableEq, Repr

/-- The `MenuItem` row fields `create_order` reads. -/
structure MenuItem where
  id : Nat
  restaurant_id : Nat
  price : ℚ
  is_available : Bool
  deriving DecidableEq, Repr

/-- One entry of the `items` request list passed to `create_order`. -/
structure ItemRequest where
  menu_item_id : Nat
  quantity : ℤ
  special_instructions : Option String
  deriving DecidableEq, Repr

/-- One entry of `order_items_data` accumulated by `create_order`'s loop. -/
structure PendingItem where
  menu_item_id : Nat
  quantity : ℤ
  unit_price : ℚ
  total_price : ℚ
  special_instructions : Option String
  deriving DecidableEq, Repr

/-- The `OrderItem` row of `app/models/order.py`. -/
structure OrderItem where
  order_id : Nat
  menu_item_id : Nat
  quantity : ℤ
  unit_price : ℚ
  total_price : ℚ
  special_instructions : Option String
  deriving DecidableEq, Repr

/-- The durable store the order service commits into. -/
structure DBState where
  orders : List Order
  order_items : List OrderItem
  deriving DecidableEq, Repr

/-- An empty store. -/
def dbEmpty : DBState := { orders := [], order_items := [] }

/-- The menu-item query of `create_order`'s loop: first row with the given
id, belonging to the restaurant, and available. -/
def find_menu_item (menu : List MenuItem) (restaurant_id mid : Nat) : Option MenuItem :=
  menu.find? (fun m => m.id == mid && m.restaurant_id == restaurant_id && m.is_available)

/-- The item-validation loop of `create_order`: resolves each requested item,
rejects a missing/unavailable item or a non-positive quantity, and
accumulates the subtotal and the `order_items_data` entries. -/
def build_items (menu : List MenuItem) (restaurant_id : Nat) :
    List ItemRequest → Except ServiceError (ℚ × List PendingItem)
  | [] => Except.ok (0, [])
  | it :: rest =>
      match find_menu_item menu restaurant_id it.menu_item_id with
      | none => Except.error (ServiceError.Validation "Menu item not available")
      | some mi =>
          if it.quantity ≤ 0 then
            Except.error (ServiceError.Validation "Quantity must be greater than 0")
          else
            match build_items menu restaurant_id rest with
            | Except.error e => Except.error e
            | Except.ok (sub, acc) =>
                Except.ok
                  (mi.price * ((it.quantity : ℤ) : ℚ) + sub,
                   { menu_item_id := it.menu_item_id
                   , quantity := it.quantity
                   , unit_price := mi.price
                   , total_price := mi.price * ((it.quantity : ℤ) : ℚ)
                   , special_instructions := it.special_instructions } :: acc)

/-- Python float truthiness of an optional coordinate: absent or 0.0 is falsy. -/
def pyTruthy : Option ℚ → Bool
  | none => false
  | some x => decide (x ≠ 0)

/-- `OrderService.create_order` (`app/service/order_service.py`).  Checks in
source order: active restaurant, item loop, minimum-order rejection; then
the delivery fee (distance-based only when all four coordinates are truthy;
the haversine `calculate_distance` is transcendental, so its value enters
as the parameter `distance_km`), `calculate_order_total` with tax rate 0.08
and discount 0, then TWO commits: the first persists the Order row alone,
the second inserts the OrderItem rows.  On success the result carries the
store after the first commit, the store after the second, and the order. -/
def create_order (db : DBState) (restaurants : List Restaurant)
    (menu : List MenuItem) (customer_id restaurant_id : Nat)
    (items : List ItemRequest) (order_number : String) (new_order_id : Nat)
    (created_now : ℤ) (delivery_lat delivery_lon : Option ℚ) (distance_km : ℚ) :
    Except ServiceError (DBState × DBState × Order) :=
  match restaurants.find? (fun r => r.id == restaurant_id && r.is_active) with
  | none => Except.error ServiceError.NotFound
  | some restaurant =>
      match build_items menu restaurant_id items with
      | Except.error e => Except.error e
      | Except.ok (subtotal, pending) =>
          if subtotal < restaurant.minimum_order then
            Except.error (ServiceError.Validation "Minimum order amount")
          else
            let delivery_fee :=
              if pyTruthy delivery_lat && pyTruthy delivery_lon
                  && pyTruthy restaurant.latitude && pyTruthy restaurant.longitude then
                calculate_deliver_fee distance_km restaurant.delivery_fee
              else restaurant.delivery_fee
            let totals := calculate_order_total subtotal delivery_fee (8/100) 0
            let order : Order :=
              { id := new_order_id
              , order_number := order_number
              , customer_id := customer_id
              , restaurant_id := restaurant_id
              , delivery_partner_id := none
              , status := .PENDING
              , payment_status := .PENDING
              , subtotal := totals.subtotal
              , delivery_fee := totals.delivery_fee
              , tax_amount := totals.tax_amount
              , discount_amount := totals.discount_amount
              , total_amount := totals.total_amount
              , prepared_at := none
              , picked_up_at := none
              , delivered_at := none
              , cancelled_at := none
              , created_at := created_now }
            let afterFirstCommit : DBState := { db with orders := db.orders ++ [order] }
            let newItems : List OrderItem :=
              pending.map (fun pd =>
                { order_id := new_order_id
                , menu_item_id := pd.menu_item_id
                , quantity := pd.quantity
                , unit_price := pd.unit_price
                , total_price := pd.total_price
                , special_instructions := pd.special_instructions })
            let final : DBState :=
              { afterFirstCommit with
                  order_items := afterFirstCommit.order_items ++ newItems }
            Except.ok (afterFirstCommit, final, order)

/-- The request's observable effect on the store: on error nothing was
committed and the store is unchanged; on success the final store and the
order. -/
def run_create_order (db : DBState) (restaurants : List Restaurant)
    (menu : List MenuItem) (customer_id restaurant_id : Nat)
    (items : List ItemRequest) (order_number : String) (new_order_id : Nat)
    (created_now : ℤ) (delivery_lat delivery_lon : Option ℚ) (distance_km : ℚ) :
    DBState × Option Order :=
  match create_order db restaurants menu customer_id restaurant_id items
      order_number new_order_id created_now delivery_lat delivery_lon distance_km with
  | Except.error _ => (db, none)
  | Except.ok (_, final, o) => (final, some o)

/-- A restaurant with a 30.00 minimum order. -/
def c9Restaurant : Restaurant :=
  { id := 20
  , is_active := true
  , minimum_order := 30
  , delivery_fee := 299/100
  , latitude := none
  , longitude := none
  , owner_id := 2 }

/-- A menu with one 25.00 item. -/
def c9Menu : List MenuItem := [{ id := 100, restaurant_id := 20, price := 25, is_available := true }]

/-- A request for one unit of that item. -/
def c9Items : List ItemRequest := [{ menu_item_id := 100, quantity := 1, special_instructions := none }]

/-- C9: for cent-valued non-negative money inputs (every amount the service
produces is one) the persisted fields of `calculate_order_total` satisfy
`total_amount = subtotal + delivery_fee + tax_amount - discount_amount`
exactly; the spec's scenario subtotal 25.00, fee 2.99, tax rate 0.08,
discount 0 yields tax 2.00 and total 29.99; and a subtotal below the
restaurant's minimum (25 < 30) is rejected by `create_order` with nothing
persisted. -/
theorem C9_order_total_identity_scenario_and_minimum :
    (∀ (s f d : ℤ) (r : ℚ),
      (calculate_order_total (((s : ℤ) : ℚ)/100) (((f : ℤ) : ℚ)/100) r
          (((d : ℤ) : ℚ)/100)).total_amount
        = (calculate_order_total (((s : ℤ) : ℚ)/100) (((f : ℤ) : ℚ)/100) r
            (((d : ℤ) : ℚ)/100)).subtotal
          + (calculate_order_total (((s : ℤ) : ℚ)/100) (((f : ℤ) : ℚ)/100) r
              (((d : ℤ) : ℚ)/100)).delivery_fee
          + (calculate_order_total (((s : ℤ) : ℚ)/100) (((f : ℤ) : ℚ)/100) r
              (((d : ℤ) : ℚ)/100)).tax_amount
          - (calculate_order_total (((s : ℤ) : ℚ)/100) (((f : ℤ) : ℚ)/100) r
              (((d : ℤ) : ℚ)/100)).discount_amount) ∧
    (calculate_order_total 25 (299/100) (8/100) 0).tax_amount = 2 ∧
    (calculate_order_total 25 (299/100) (8/100) 0).total_amount = 2999/100 ∧
    run_create_order dbEmpty [c9Restaurant] c9Menu 10 20 c9Items "ORD-X" 31 0 none none 0
      = (dbEmpty, none) := by
  refine ⟨?_, ?_, ?_, ?_⟩
  · intro s f d r
    simp only [calculate_order_total, calculate_tax]
    obtain ⟨k, hk⟩ := pyRound2_form ((((s : ℤ) : ℚ)/100) * r)
    rw [hk, pyRound2_div100 s, pyRound2_div100 f, pyRound2_div100 k, pyRound2_div100 d]
    rw [show ((s : ℤ) : ℚ)/100 + ((f : ℤ) : ℚ)/100 + ((k : ℤ) : ℚ)/100 - ((d : ℤ) : ℚ)/100
        = (((s + f + k - d : ℤ) : ℤ) : ℚ)/100 by push_cast; ring]
    rw [pyRound2_div100]
  · simp only [calculate_order_total, calculate_tax]
    rw [pyRound2_eq_of_mul_eq ((25 : ℚ) * (8/100)) 200 (by norm_num)]
    rw [pyRound2_eq_of_mul_eq (((200 : ℤ) : ℚ)/100) 200 (by norm_num)]
    norm_num
  · simp only [calculate_order_total, calculate_tax]
    rw [pyRound2_eq_of_mul_eq ((25 : ℚ) * (8/100)) 200 (by norm_num)]
    rw [pyRound2_eq_of_mul_eq
      ((25 : ℚ) + 299/100 + ((200 : ℤ) : ℚ)/100 - 0) 2999 (by norm_num)]
    norm_num
  · simp only [run_create_order, create_order, c9Restaurant, c9Menu, c9Items,
      build_items, find_menu_item, List.find?]
    norm_num

/-- C10: a successful `create_order` commits the Order row first: the store
state after the first commit already contains the order durably while its
item rows are absent (the item table is exactly the pre-existing one), and
the order table does not change again in the second commit.  If the second
commit fails, a committed order with zero items remains visible. -/
theorem C10_first_commit_persists_order_without_items
    (db : DBState) (restaurants : List Restaurant) (menu : List MenuItem)
    (customer_id restaurant_id : Nat) (items : List ItemRequest)
    (order_number : String) (new_order_id : Nat) (created_now : ℤ)
    (delivery_lat delivery_lon : Option ℚ) (distance_km : ℚ)
    (mid final : DBState) (o : Order)
    (h : create_order db restaurants menu customer_id restaurant_id items
        order_number new_order_id created_now delivery_lat delivery_lon distance_km
      = Except.ok (mid, final, o)) :
    o ∈ mid.orders ∧ mid.order_items = db.order_items ∧ final.orders = mid.orders := by
  unfold create_order at h
  cases hr : restaurants.find? (fun r => r.id == restaurant_id && r.is_active) with
  | none =>
      rw [hr] at h
      exact Except.noConfusion h
  | some restaurant =>
      rw [hr] at h
      cases hb : build_items menu restaurant_id items with
      | error e =>
          rw [hb] at h
          exact Except.noConfusion h
      | ok sp =>
          obtain ⟨subtotal, pending⟩ := sp
          rw [hb] at h
          dsimp only at h
          by_cases hlt : subtotal < restaurant.minimum_order
          · rw [if_pos hlt] at h
            exact Except.noConfusion h
          · rw [if_neg hlt] at h
            simp only [Except.ok.injEq, Prod.mk.injEq] at h
            obtain ⟨rfl, rfl, rfl⟩ := h
            exact ⟨by simp, rfl, rfl⟩

/-- A menu with one 35.00 item, above the 30.00 minimum. -/
def c10Menu : List MenuItem := [{ id := 100, restaurant_id := 20, price := 35, is_available := true }]

/-- The order `create_order` builds for that menu: subtotal 35.00,
fee 2.99, tax 2.80, total 40.79. -/
def c10order : Order :=
  { id := 1
  , order_number := "ORD-Y"
  , customer_id := 10
  , restaurant_id := 20
  , delivery_partner_id := none
  , status := .PENDING
  , payment_status := .PENDING
  , subtotal := 35
  , delivery_fee := 299/100
  , tax_amount := 14/5
  , discount_amount := 0
  , total_amount := 4079/100
  , prepared_at := none
  , picked_up_at := none
  , delivered_at := none
  , cancelled_at := none
  , created_at := 0 }

/-- The store after the first commit: the order row alone, no items. -/
def c10mid : DBState := { orders := [c10order], order_items := [] }

/-- The store after the second commit: the order and its one item row. -/
def c10final : DBState :=
  { orders := [c10order]
  , order_items :=
      [{ order_id := 1, menu_item_id := 100, quantity := 1, unit_price := 35
       , total_price := 35, special_instructions := none }] }

/-- The concrete creation evaluates to the two commit states above. -/
theorem c10_create_order_eval :
    create_order dbEmpty [c9Restaurant] c10Menu 10 20 c9Items "ORD-Y" 1 0 none none 0
      = Except.ok (c10mid, c10final, c10order) := by
  have harg : (35 : ℚ) * ((1 : ℤ) : ℚ) + 0 = 35 := by push_cast; ring
  have htax : pyRound2 ((35 : ℚ) * (8/100)) = 14/5 := by
    rw [pyRound2_eq_of_mul_eq ((35 : ℚ) * (8/100)) 280 (by norm_num)]
    norm_num
  have h35 : pyRound2 (35 : ℚ) = 35 := by
    rw [pyRound2_eq_of_mul_eq (35 : ℚ) 3500 (by norm_num)]
    norm_num
  have hfee : pyRound2 ((299 : ℚ)/100) = 299/100 := by
    rw [pyRound2_eq_of_mul_eq ((299 : ℚ)/100) 299 (by norm_num)]
    norm_num
  have h0 : pyRound2 (0 : ℚ) = 0 := by
    rw [pyRound2_eq_of_mul_eq (0 : ℚ) 0 (by norm_num)]
    norm_num
  have htot : pyRound2 ((35 : ℚ) + 299/100 + 14/5 - 0) = 4079/100 := by
    rw [pyRound2_eq_of_mul_eq ((35 : ℚ) + 299/100 + 14/5 - 0) 4079 (by norm_num)]
    norm_num
  have htax2 : pyRound2 ((14 : ℚ)/5) = 14/5 := by
    rw [pyRound2_eq_of_mul_eq ((14 : ℚ)/5) 280 (by norm_num)]
    norm_num
  have htot2 : pyRound2 ((3799 : ℚ)/100 + 14/5) = 4079/100 := by
    rw [pyRound2_eq_of_mul_eq ((3799 : ℚ)/100 + 14/5) 4079 (by norm_num)]
    norm_num
  have htot3 : pyRound2 ((4079 : ℚ)/100) = 4079/100 := by
    rw [pyRound2_eq_of_mul_eq ((4079 : ℚ)/100) 4079 (by norm_num)]
    norm_num
  simp only [create_order, c9Restaurant, c10Menu, c9Items, dbEmpty, build_items,
    find_menu_item, List.find?, calculate_order_total, calculate_tax, pyTruthy]
  norm_num [harg, htax, h35, hfee, h0, htot, htax2, htot2, htot3, c10mid, c10final,
    c10order]

/-- C10 witness: the theorem applied to the concrete successful creation —
a 35.00 item against the 30.00 minimum. -/
theorem C10_witness_concrete_creation :
    c10order ∈ c10mid.orders ∧ c10mid.order_items = dbEmpty.order_items ∧
      c10final.orders = c10mid.orders :=
  C10_first_commit_persists_order_without_items dbEmpty [c9Restaurant] c10Menu
    10 20 c9Items "ORD-Y" 1 0 none none 0 c10mid c10final c10order
    c10_create_order_eval

end FoodDelivery
